import Mathlib

/-!
# EE-movies: the Profile and EditProfile pages

A shallow embedding of the state plumbing of `src/Pages/Profile.jsx` and
`src/Pages/EditProfile.jsx`.  A handler is a function from the state it starts
in, and from the outcomes of the HTTP requests it awaits, to the state it ends
in together with the trace of effects it performed, in program order.
-/

set_option autoImplicit false

/-! ## JavaScript values -/

/-- A JavaScript value as it comes out of `JSON.parse` or of an axios response
body, plus `undefined`.  Numbers are restricted to integers.  An object is the
list of its own properties. -/
inductive Json where
  | undefined : Json
  | null : Json
  | bool (b : Bool) : Json
  | num (n : Int) : Json
  | str (s : String) : Json
  | arr (items : List Json) : Json
  | obj (fields : List (String × Json)) : Json

/-- What a `try` block can catch here: the rejection of an axios request, or
the `TypeError` of a property access or method call on the wrong kind of
value. -/
inductive Thrown where
  | typeError : Thrown
  | axios (status : Option Nat) : Thrown

namespace Json

/-- JavaScript truthiness (`!!v`). -/
def truthy : Json → Bool
  | undefined => false
  | null => false
  | bool b => b
  | num n => n != 0
  | str s => s != ""
  | arr _ => true
  | obj _ => true

/-- The operator `a || b`. -/
def or (a b : Json) : Json :=
  if a.truthy then a else b

/-- The operator `a === b`.  Two arrays or objects are equal only when they are
the same reference; the values compared here come from two different parses, so
they never are. -/
def strictEq : Json → Json → Bool
  | undefined, undefined => true
  | null, null => true
  | bool a, bool b => a == b
  | num a, num b => a == b
  | str a, str b => a == b
  | _, _ => false

/-- The property access `o.k`, for a key `k` that no prototype defines (such as
`id`, `_id`, `avatarUrl`): a `TypeError` on `null` and `undefined`, the own
property of an object, and `undefined` everywhere else. -/
def getProp (o : Json) (k : String) : Except Thrown Json :=
  match o with
  | undefined => .error .typeError
  | null => .error .typeError
  | obj fields => .ok ((fields.lookup k).getD undefined)
  | _ => .ok undefined

/-- The optional chaining `o?.k`. -/
def optProp (o : Json) (k : String) : Json :=
  match o with
  | obj fields => (fields.lookup k).getD undefined
  | _ => undefined

/-- A value that is a string or `null`, such as `localStorage.getItem(k)`. -/
def ofNullable : Option String → Json
  | none => null
  | some s => str s

/-- A value that is a string or `undefined`, such as a route parameter. -/
def ofOptional : Option String → Json
  | none => undefined
  | some s => str s

end Json

/-! ## Effects -/

/-- One piece of a template literal: literal text, or an interpolated value
(kept as the value, before its conversion to a string). -/
inductive Piece where
  | lit (s : String) : Piece
  | hole (v : Json) : Piece

/-- A template literal. -/
abbrev Template := List Piece

/-- The HTTP methods in use. -/
inductive Method where
  | GET : Method
  | POST : Method
  | PUT : Method
  | DELETE : Method
  deriving DecidableEq

/-- An uploaded file, known by its name. -/
structure File where
  name : String

/-- The body of a request. -/
inductive Body where
  | none : Body
  | json (j : Json) : Body
  | formData (fields : List (String × File)) : Body

/-- An HTTP request as handed to axios: method, URL, body and the
`Authorization` header. -/
structure Request where
  method : Method
  url : Template
  body : Body
  authorization : Template

/-- The observable effects of the handlers.  A call of `console.error` is
recorded with its leading string literal, when it has one. -/
inductive Event where
  | request (r : Request) : Event
  | navigate (path : Template) : Event
  | consoleError (label : Option String) : Event
  | alert (msg : String) : Event
  | refetchWatchlist : Event

/-- The outcome of an awaited axios request: fulfilled with the response body
`data`, or rejected; `status` is `err.response.status`, absent when there was
no response at all. -/
inductive Outcome where
  | ok (data : Json) : Outcome
  | fail (status : Option Nat) : Outcome

/-- The `Authorization` header of every request. -/
def bearer (token : Option String) : Template :=
  [.lit "Bearer ", .hole (Json.ofNullable token)]

/-! ## localStorage -/

/-- The persisted key-value area. -/
abbrev Storage := List (String × String)

/-- The call `localStorage.getItem(key)`. -/
def Storage.getItem (st : Storage) (key : String) : Option String :=
  st.lookup key

/-- The call `localStorage.removeItem(key)`. -/
def Storage.removeItem (st : Storage) (key : String) : Storage :=
  st.filter (fun p => p.1 != key)

/-! ## Profile.jsx -/

namespace Profile

/-- The React state of the Profile component. -/
structure View where
  localToken : Option String
  localCurrentUser : Json
  profile : Json
  isFollowing : Bool
  loading : Bool
  isLoading : Bool
  activeTab : String
  reviews : Json
  followers : Json
  following : Json
  movies : Json
  recommendations : Json

/-- Line 25: `localCurrentUser?.id`. -/
def currentUserId (v : View) : Json :=
  v.localCurrentUser.optProp "id"

/-- Line 26: `paramId || currentUserId`, the id of the profile being viewed. -/
def id (paramId : Option String) (v : View) : Json :=
  (Json.ofOptional paramId).or (currentUserId v)

/-- Line 27: `!!localToken && !!currentUserId`. -/
def isAuthenticated (v : View) : Bool :=
  (Json.ofNullable v.localToken).truthy && (currentUserId v).truthy

/-- An effect together with the view shown while it is performed: the state
with every update queued so far applied, which is what React renders as soon as
the handler yields at the next `await`. -/
structure Step where
  event : Event
  shown : View

/-- A run in progress: the React state, localStorage and the effects so far. -/
structure Run where
  view : View
  storage : Storage
  trace : List Step

/-- The effects of a run, in program order. -/
def Run.events (r : Run) : List Event :=
  r.trace.map Step.event

/-- The requests of a run, in program order. -/
def Run.requests (r : Run) : List Request :=
  r.events.filterMap (fun e => match e with | .request q => some q | _ => none)

/-- Perform an effect. -/
def Run.emit (e : Event) (r : Run) : Run :=
  { r with trace := r.trace ++ [⟨e, r.view⟩] }

/-- Call state setters. -/
def Run.set (f : View → View) (r : Run) : Run :=
  { r with view := f r.view }

/-- A run that starts in view `v` with storage `st`. -/
def Run.start (v : View) (st : Storage) : Run :=
  ⟨v, st, []⟩

/-- An authorised GET of `url`. -/
def get (token : Option String) (url : Template) : Event :=
  .request ⟨.GET, url, .none, bearer token⟩

/-- Lines 53-67: `handleLogout`.  The hook function `refetchWatchlist` is
recorded as an effect and returns. -/
def handleLogout (r : Run) : Run :=
  let r := { r with storage := r.storage.removeItem "token" }
  let r := { r with storage := r.storage.removeItem "currentUser" }
  let r := r.set (fun v => { v with localToken := none })
  let r := r.set (fun v => { v with localCurrentUser := .null })
  let r := r.set (fun v => { v with profile := .null })
  let r := r.set (fun v => { v with followers := .arr [] })
  let r := r.set (fun v => { v with reviews := .arr [] })
  let r := r.set (fun v => { v with following := .arr [] })
  let r := r.set (fun v => { v with movies := .arr [] })
  let r := r.set (fun v => { v with recommendations := .arr [] })
  let r := r.emit .refetchWatchlist
  r.emit (.navigate [.lit "/"])

/-- The six reads of `fetchAllData`, in the order of the array handed to
`Promise.all`. -/
inductive Read where
  | user : Read
  | followers : Read
  | reviews : Read
  | following : Read
  | movies : Read
  | recs : Read
  deriving DecidableEq

/-- The six reads in array order. -/
def Read.all : List Read :=
  [.user, .followers, .reviews, .following, .movies, .recs]

/-- Lines 123-128: the URL of each read. -/
def Read.url (i : Json) : Read → Template
  | .user => [.lit "/auth/", .hole i]
  | .followers => [.lit "/auth/", .hole i, .lit "/followers"]
  | .reviews => [.lit "/auth/", .hole i, .lit "/reviews"]
  | .following => [.lit "/auth/", .hole i, .lit "/following"]
  | .movies => [.lit "/movies/", .hole i, .lit "/uploaded-movies"]
  | .recs => [.lit "/movies/", .hole i, .lit "/recommendations"]

/-- The rejection `Promise.all` reports: that of the first read to be rejected.
The list `order` gives the order in which the reads settle; a read it leaves
out settles after those it names, in array order. -/
def firstRejection (order : List Read) (out : Read → Outcome) : Option (Option Nat) :=
  (order ++ Read.all).findSome? (fun i =>
    match out i with
    | .fail status => some status
    | .ok _ => none)

/-- The body of a fulfilled read. -/
def dataOf (out : Read → Outcome) (i : Read) : Json :=
  match out i with
  | .ok data => data
  | .fail _ => .undefined

/-- Line 133: `data.some(f => f._id === cur)`.  A value that is not an array
has no method `some`, and `f._id` throws on a `null` entry; the scan stops at
the first match. -/
def someIdMatches (data cur : Json) : Except Thrown Bool :=
  match data with
  | .arr items => scan items
  | _ => .error .typeError
where
  /-- The scan of `Array.prototype.some`. -/
  scan : List Json → Except Thrown Bool
    | [] => .ok false
    | f :: rest =>
      match f.getProp "_id" with
      | .error t => .error t
      | .ok v => if v.strictEq cur then .ok true else scan rest

/-- Lines 139-146: the `catch` branch of `fetchAllData`. -/
def catchFetch (t : Thrown) (r : Run) : Run :=
  let r := r.emit (.consoleError (some "Error loading profile data:"))
  match t with
  | .axios (some 401) => handleLogout r
  | _ => r

/-- Lines 112-150: `fetchAllData`, run to completion.  `i`, `token` and `cur`
are the `id`, `localToken` and `currentUserId` of the render that created the
effect. -/
def fetchAllData (i : Json) (token : Option String) (cur : Json)
    (order : List Read) (out : Read → Outcome) (r : Run) : Run :=
  let r := r.set (fun v => { v with isLoading := true })
  let r := Read.all.foldl (fun r k => r.emit (get token (k.url i))) r
  let r :=
    match firstRejection order out with
    | some status => catchFetch (.axios status) r
    | none =>
      let r := r.set (fun v => { v with profile := dataOf out .user })
      let r := r.set (fun v => { v with followers := dataOf out .followers })
      match someIdMatches (dataOf out .followers) cur with
      | .error t => catchFetch t r
      | .ok b =>
        let r := r.set (fun v => { v with isFollowing := b })
        let r := r.set (fun v => { v with reviews := dataOf out .reviews })
        let r := r.set (fun v => { v with following := dataOf out .following })
        let r := r.set (fun v => { v with movies := dataOf out .movies })
        r.set (fun v => { v with recommendations := dataOf out .recs })
  r.set (fun v => { v with isLoading := false })

/-- Lines 99-152: one run of the main data fetching effect, created by a render
with route parameter `paramId` and state `r.view`. -/
def mainEffect (paramId : Option String) (order : List Read) (out : Read → Outcome)
    (r : Run) : Run :=
  let i := id paramId r.view
  let auth := isAuthenticated r.view
  if !i.truthy || !auth then
    let r := r.set (fun v => { v with isLoading := false })
    let r := r.set (fun v => { v with profile := .null })
    let r := r.set (fun v => { v with followers := .arr [] })
    let r := r.set (fun v => { v with reviews := .arr [] })
    let r := r.set (fun v => { v with following := .arr [] })
    let r := r.set (fun v => { v with movies := .arr [] })
    r.set (fun v => { v with recommendations := .arr [] })
  else
    fetchAllData i r.view.localToken (currentUserId r.view) order out r

/-- The claim of an all-or-nothing commit, first half: the six aggregated
pieces of state hold the bodies of the six responses. -/
def Committed (out : Read → Outcome) (v : View) : Prop :=
  v.profile = dataOf out .user ∧ v.followers = dataOf out .followers ∧
  v.reviews = dataOf out .reviews ∧ v.following = dataOf out .following ∧
  v.movies = dataOf out .movies ∧ v.recommendations = dataOf out .recs

/-- The claim of an all-or-nothing commit, second half: the six aggregated
pieces of state of `v` are those of `v0`. -/
def Unchanged (v0 v : View) : Prop :=
  v.profile = v0.profile ∧ v.followers = v0.followers ∧ v.reviews = v0.reviews ∧
  v.following = v0.following ∧ v.movies = v0.movies ∧
  v.recommendations = v0.recommendations

/-- The six aggregated pieces of state are reset: no profile, empty lists. -/
def Cleared (v : View) : Prop :=
  v.profile = .null ∧ v.followers = .arr [] ∧ v.reviews = .arr [] ∧
  v.following = .arr [] ∧ v.movies = .arr [] ∧ v.recommendations = .arr []

/-- The run has navigated to the route "/". -/
def NavigatedHome (r : Run) : Prop :=
  ∃ s ∈ r.trace, s.event = .navigate [.lit "/"]

/-- The session is torn down: both persisted keys are absent, both mirrors are
null, and the run has navigated to "/". -/
def LoggedOut (r : Run) : Prop :=
  r.storage.getItem "token" = none ∧ r.storage.getItem "currentUser" = none ∧
  r.view.localToken = none ∧ r.view.localCurrentUser = .null ∧ NavigatedHome r

/-- Lines 33-47: the state of a freshly mounted Profile, given what line 15 and
line 16 read from localStorage. -/
def View.initial (token : Option String) (user : Json) : View where
  localToken := token
  localCurrentUser := user
  profile := .null
  isFollowing := false
  loading := false
  isLoading := true
  activeTab := "watchlist"
  reviews := .arr []
  followers := .arr []
  following := .arr []
  movies := .arr []
  recommendations := .arr []

/-- A session: user "7" is logged in with token "abc". -/
def sampleUser : Json :=
  .obj [("id", .str "7"), ("username", .str "ada")]

/-- The persisted copy of the sample session. -/
def sampleStorage : Storage :=
  [("token", "abc"), ("currentUser", "\x7b\"id\":\"7\",\"username\":\"ada\"\x7d")]

/-- A populated view of profile "42" by the sample session. -/
def sampleView : View :=
  { View.initial (some "abc") sampleUser with
    profile := .obj [("username", .str "bob")]
    isFollowing := true
    isLoading := false
    followers := .arr [.obj [("_id", .str "7")]]
    reviews := .arr [.obj [("text", .str "fine")]] }

/-- Outcomes where the profile read is rejected with status 401 and the other
five reads return empty lists. -/
def unauthorised : Read → Outcome
  | .user => .fail (some 401)
  | _ => .ok (.arr [])

/-- Outcomes where the profile read is rejected with status 500, the followers
read with status 401, and the other four reads return empty lists. -/
def mixedFailures : Read → Outcome
  | .user => .fail (some 500)
  | .followers => .fail (some 401)
  | _ => .ok (.arr [])

/-- Outcomes where the recommendations read is rejected with status 500 and the
other five reads return empty lists. -/
def serverError : Read → Outcome
  | .recs => .fail (some 500)
  | _ => .ok (.arr [])

/-- Outcomes where all six reads succeed and the followers body is an error
object instead of a list. -/
def malformed : Read → Outcome
  | .user => .ok (.obj [("username", .str "eve")])
  | .followers => .ok (.obj [("message", .str "oops")])
  | _ => .ok (.arr [])

/-- Outcomes where all six reads succeed and user "7" is the one follower. -/
def allFine : Read → Outcome
  | .user => .ok (.obj [("username", .str "eve")])
  | .followers => .ok (.arr [.obj [("_id", .str "7")]])
  | _ => .ok (.arr [])

end Profile

namespace Profile

/-- The outcomes of the three requests of a follow or unfollow action: the
mutating request and the two reads that follow it. -/
structure Refetch where
  mutation : Outcome
  followers : Outcome
  following : Outcome

/-- Lines 155-175: `handleFollow`, run to completion, created by a render with
route parameter `paramId` and state `r.view`. -/
def handleFollow (paramId : Option String) (out : Refetch) (r : Run) : Run :=
  let i := id paramId r.view
  let token := r.view.localToken
  let r := r.set (fun v => { v with loading := true })
  let r := r.emit (.request
    ⟨.POST, [.lit "/auth/", .hole i, .lit "/follow"], .json (.obj []), bearer token⟩)
  let r :=
    match out.mutation with
    | .fail _ => r.emit (.consoleError none)
    | .ok _ =>
      let r := r.set (fun v => { v with isFollowing := true })
      let r := r.emit (get token [.lit "/auth/", .hole i, .lit "/followers"])
      match out.followers with
      | .fail _ => r.emit (.consoleError none)
      | .ok data =>
        let r := r.set (fun v => { v with followers := data })
        let r := r.emit (get token [.lit "/auth/", .hole i, .lit "/following"])
        match out.following with
        | .fail _ => r.emit (.consoleError none)
        | .ok data => r.set (fun v => { v with following := data })
  r.set (fun v => { v with loading := false })

/-- Lines 177-196: `handleUnfollow`, run to completion. -/
def handleUnfollow (paramId : Option String) (out : Refetch) (r : Run) : Run :=
  let i := id paramId r.view
  let token := r.view.localToken
  let r := r.set (fun v => { v with loading := true })
  let r := r.emit (.request
    ⟨.DELETE, [.lit "/auth/", .hole i, .lit "/unfollow"], .none, bearer token⟩)
  let r :=
    match out.mutation with
    | .fail _ => r.emit (.consoleError none)
    | .ok _ =>
      let r := r.set (fun v => { v with isFollowing := false })
      let r := r.emit (get token [.lit "/auth/", .hole i, .lit "/followers"])
      match out.followers with
      | .fail _ => r.emit (.consoleError none)
      | .ok data =>
        let r := r.set (fun v => { v with followers := data })
        let r := r.emit (get token [.lit "/auth/", .hole i, .lit "/following"])
        match out.following with
        | .fail _ => r.emit (.consoleError none)
        | .ok data => r.set (fun v => { v with following := data })
  r.set (fun v => { v with loading := false })

/-- Line 264: the `onClick` of the follow button,
`isFollowing ? handleUnfollow : handleFollow`. -/
def onClick (v : View) : Option String → Refetch → Run → Run :=
  if v.isFollowing then handleUnfollow else handleFollow

/-- The run has issued a GET of `url`. -/
def IssuesGet (url : Template) (r : Run) : Prop :=
  ∃ q ∈ r.requests, q.method = .GET ∧ q.url = url

/-- The POST of `handleFollow`. -/
def followRequest (i : Json) (token : Option String) : Event :=
  .request ⟨.POST, [.lit "/auth/", .hole i, .lit "/follow"], .json (.obj []), bearer token⟩

/-- The DELETE of `handleUnfollow`. -/
def unfollowRequest (i : Json) (token : Option String) : Event :=
  .request ⟨.DELETE, [.lit "/auth/", .hole i, .lit "/unfollow"], .none, bearer token⟩

/-- The entry of the followers list under which `f` counts as the user `cur`:
its `_id` can be read and is strictly equal to `cur`. -/
def IsUser (cur f : Json) : Prop :=
  ∃ v, f.getProp "_id" = .ok v ∧ v.strictEq cur = true

end Profile

/-! ## EditProfile.jsx -/

namespace EditProfile

/-- Line 9: the form. -/
structure Form where
  name : Json
  username : Json
  bio : Json
  avatarUrl : Json

/-- Line 59: the object literal `{ ...form, avatarUrl }`. -/
def Form.withAvatar (form : Form) (avatarUrl : Json) : Json :=
  .obj [("name", form.name), ("username", form.username), ("bio", form.bio),
    ("avatarUrl", avatarUrl)]

/-- Lines 9-11: the React state of the EditProfile component. -/
structure State where
  form : Form
  avatarFile : Option File
  loading : Bool

/-- A submission in progress: the React state and the effects so far. -/
structure Run where
  state : State
  trace : List Event

/-- Perform an effect. -/
def Run.emit (e : Event) (r : Run) : Run :=
  { r with trace := r.trace ++ [e] }

/-- The requests of a submission, in program order. -/
def Run.requests (r : Run) : List Request :=
  r.trace.filterMap (fun e => match e with | .request q => some q | _ => none)

/-- Lines 49-53: the upload request. -/
def uploadRequest (token : Option String) (file : File) : Request :=
  ⟨.POST, [.lit "http://localhost:5000/api/auth/upload-avatar"],
    .formData [("file", file)], bearer token⟩

/-- Lines 57-61: the update request. -/
def updateRequest (idParam token : Option String) (form : Form) (avatarUrl : Json) : Request :=
  ⟨.PUT, [.lit "http://localhost:5000/api/auth/", .hole (Json.ofOptional idParam)],
    .json (form.withAvatar avatarUrl), bearer token⟩

/-- Lines 64-66: the `catch` branch of `handleSubmit`. -/
def catchSubmit (r : Run) : Run :=
  r.emit (.consoleError (some "Error updating profile"))

/-- Lines 57-63: the update, the alert and the navigation. -/
def update (idParam token : Option String) (avatarUrl : Json) (put : Outcome) (r : Run) : Run :=
  let r := r.emit (.request (updateRequest idParam token r.state.form avatarUrl))
  match put with
  | .fail _ => catchSubmit r
  | .ok _ =>
    let r := r.emit (.alert "✅ Profile updated successfully!")
    r.emit (.navigate [.lit "/profile/", .hole (Json.ofOptional idParam)])

/-- Lines 42-68: `handleSubmit`, run to completion.  `idParam` is the route
parameter, `token` what line 8 read from localStorage, `upload` and `put` the
outcomes of the two requests.  The call `e.preventDefault()` touches neither the
state nor the network and is left out. -/
def handleSubmit (idParam token : Option String) (upload put : Outcome) (s : State) : Run :=
  let r : Run := ⟨{ s with loading := true }, []⟩
  let r :=
    match s.avatarFile with
    | some file =>
      let r := r.emit (.request (uploadRequest token file))
      match upload with
      | .fail _ => catchSubmit r
      | .ok data =>
        match data.getProp "avatarUrl" with
        | .error _ => catchSubmit r
        | .ok avatarUrl => update idParam token avatarUrl put r
    | none => update idParam token s.form.avatarUrl put r
  { r with state := { r.state with loading := false } }

/-- A form as `fetchProfile` fills it. -/
def sampleForm : Form :=
  ⟨.str "Ada", .str "ada", .str "", .str "/old.png"⟩

/-- A form state with an avatar file attached. -/
def sampleState : State :=
  ⟨sampleForm, some ⟨"new.png"⟩, false⟩

end EditProfile

/-! ## Profile.jsx: rendering -/

namespace Profile

/-- Line 41: what the hook `UseWatchList` (src/Hook/UseWatchList) hands to the
component, taken as a parameter: `loading` is a boolean and `error` is null or
an error object, known by its message. -/
structure WatchlistHook where
  watchlist : Json
  loading : Bool
  error : Option String

/-- The elements the tab panels are made of, without their styling. -/
inductive Element where
  | p (text : String) : Element
  | h3 (text : String) : Element
  | movieCard (key movie : Json) (isAuthenticated : Bool) : Element
  | review (key r : Json) : Element
  | user (key u : Json) : Element

/-- One tab panel: the tab it belongs to and the elements inside it, in
document order (the grid inside the uploaded and recommended panels is
flattened into the panel). -/
structure Panel where
  tab : String
  children : List Element

/-- What the component returns. -/
inductive Page where
  | loading : Page
  | watchlistError (message : String) : Page
  | unavailable : Page
  | profile (panels : List Panel) : Page

/-- The tab panels of a page. -/
def Page.panels : Page → List Panel
  | .profile panels => panels
  | _ => []

/-- The call `data.map(f)`: only an array has the method. -/
def mapArr (f : Json → Except Thrown Element) (data : Json) : Except Thrown (List Element) :=
  match data with
  | .arr items => each items
  | _ => .error .typeError
where
  /-- The loop of `Array.prototype.map`. -/
  each : List Json → Except Thrown (List Element)
    | [] => .ok []
    | x :: rest =>
      match f x with
      | .error t => .error t
      | .ok e =>
        match each rest with
        | .error t => .error t
        | .ok es => .ok (e :: es)

/-- The test `data.length === 0`. -/
def lengthIsZero (data : Json) : Except Thrown Bool :=
  match data with
  | .undefined => .error .typeError
  | .null => .error .typeError
  | .arr items => .ok (items.length == 0)
  | .str s => .ok (s.length == 0)
  | .obj fields => .ok (((fields.lookup "length").getD .undefined).strictEq (.num 0))
  | _ => .ok false

/-- The key `x.id || x._id`. -/
def keyOf (x : Json) : Except Thrown Json :=
  match x.getProp "id" with
  | .error t => .error t
  | .ok a => if a.truthy then .ok a else x.getProp "_id"

/-- Lines 302, 350, 362-366: one MovieCard. -/
def movieCard (auth : Bool) (movie : Json) : Except Thrown Element :=
  (keyOf movie).map (fun k => .movieCard k movie auth)

/-- Lines 310-314: one review. -/
def reviewCard (r : Json) : Except Thrown Element :=
  (keyOf r).map (fun k => .review k r)

/-- Lines 321-327 and 334-340: one user row. -/
def userRow (u : Json) : Except Thrown Element :=
  (u.getProp "_id").map (fun k => .user k u)

/-- Lines 293-306: the watchlist panel. -/
def watchlistPanel (auth : Bool) (w : WatchlistHook) : Except Thrown Panel :=
  let a := if w.loading then [Element.p "Loading watchlist..."] else []
  let b := if w.error.isSome then [Element.p "Failed to load watchlist."] else []
  let empty : Except Thrown Bool :=
    if !w.loading && !w.error.isSome then lengthIsZero w.watchlist else .ok false
  match empty with
  | .error t => .error t
  | .ok true => .ok ⟨"watchlist", a ++ b ++ [.p "No movies in watchlist."]⟩
  | .ok false => (mapArr (movieCard auth) w.watchlist).map (fun c => ⟨"watchlist", a ++ b ++ c⟩)

/-- Lines 307-317: the reviews panel. -/
def reviewsPanel (v : View) : Except Thrown Panel :=
  (mapArr reviewCard v.reviews).map (fun c => ⟨"reviews", c⟩)

/-- Lines 318-330: the followers panel. -/
def followersPanel (v : View) : Except Thrown Panel :=
  (mapArr userRow v.followers).map (fun c => ⟨"followers", c⟩)

/-- Lines 331-343: the following panel. -/
def followingPanel (v : View) : Except Thrown Panel :=
  (mapArr userRow v.following).map (fun c => ⟨"following", c⟩)

/-- Lines 344-354: the uploaded panel. -/
def uploadedPanel (auth : Bool) (v : View) : Except Thrown Panel :=
  match lengthIsZero v.movies with
  | .error t => .error t
  | .ok true => .ok ⟨"uploaded", [.h3 "Uploaded Movies", .p "No uploaded movies."]⟩
  | .ok false =>
    (mapArr (movieCard auth) v.movies).map (fun c => ⟨"uploaded", .h3 "Uploaded Movies" :: c⟩)

/-- Lines 355-371: the recommended panel. -/
def recommendedPanel (auth : Bool) (v : View) : Except Thrown Panel :=
  match lengthIsZero v.recommendations with
  | .error t => .error t
  | .ok true =>
    .ok ⟨"recommended", [.h3 "Movie Recommendations", .p "No recommendations available."]⟩
  | .ok false =>
    (mapArr (movieCard auth) v.recommendations).map
      (fun c => ⟨"recommended", .h3 "Movie Recommendations" :: c⟩)

/-- The JSX `cond && panel`: the panel when the condition holds, nothing
otherwise. -/
def whenTab (cond : Bool) (panel : Except Thrown Panel) : Except Thrown (List Panel) :=
  if cond then panel.map (fun p => [p]) else .ok []

/-- Lines 292-371: the tab contents. -/
def tabContents (v : View) (w : WatchlistHook) : Except Thrown (List Panel) := do
  let auth := isAuthenticated v
  let p1 ← whenTab (v.activeTab == "watchlist") (watchlistPanel auth w)
  let p2 ← whenTab (v.activeTab == "reviews") (reviewsPanel v)
  let p3 ← whenTab (v.activeTab == "followers") (followersPanel v)
  let p4 ← whenTab (v.activeTab == "following") (followingPanel v)
  let p5 ← whenTab (v.activeTab == "uploaded") (uploadedPanel auth v)
  let p6 ← whenTab (v.activeTab == "recommended") (recommendedPanel auth v)
  pure (p1 ++ p2 ++ p3 ++ p4 ++ p5 ++ p6)

/-- Lines 201-373: what the component renders, down to the tab contents (the
header and the tab list are left out). -/
def render (v : View) (w : WatchlistHook) : Except Thrown Page :=
  let overallLoading := v.isLoading || w.loading
  if overallLoading then .ok .loading
  else
    match w.error with
    | some message => .ok (.watchlistError message)
    | none =>
      if !v.profile.truthy && !overallLoading then .ok .unavailable
      else (tabContents v w).map .profile

/-- The claim of an empty-state message: the page rendered has a tab panel
with a paragraph in it. -/
def ShowsMessage (res : Except Thrown Page) : Prop :=
  ∃ page, res = .ok page ∧ ∃ panel ∈ page.panels, ∃ text, Element.p text ∈ panel.children

/-- A hook at rest with an empty watchlist. -/
def idleHook : WatchlistHook :=
  ⟨.arr [], false, none⟩

/-- A loaded profile with nothing in any collection, showing the tab `tab`. -/
def emptyView (tab : String) : View :=
  { View.initial (some "abc") sampleUser with
    profile := .obj [("username", .str "bob")]
    isLoading := false
    activeTab := tab }

end Profile

namespace Profile

/-- Whether an element is a MovieCard. -/
def Element.isMovieCard : Element → Bool
  | .movieCard _ _ _ => true
  | _ => false

/-- The number of MovieCard elements among `es`. -/
def countMovieCards (es : List Element) : Nat :=
  (es.filter Element.isMovieCard).length

/-- Line 302: the MovieCard of a movie record, keyed by `movie.id || movie._id`. -/
def cardOf (auth : Bool) (movie : Json) : Element :=
  .movieCard ((movie.optProp "id").or (movie.optProp "_id")) movie auth

/-- A watchlist of two movie records. -/
def twoMovies : List Json :=
  [.obj [("_id", .str "m1"), ("title", .str "Alien")],
   .obj [("id", .num 2), ("title", .str "Brazil")]]

end Profile

namespace Profile

/-- Line 282: the `onClick` of a tab, `setActiveTab(tab)`. -/
def setActiveTab (tab : String) (r : Run) : Run :=
  r.set (fun v => { v with activeTab := tab })

/-- What a render receives from outside the state of the component: the route
parameter of line 12, and the functions handed over by `useNavigate` (line 31)
and by `UseWatchList` (line 41), each known by a number that stands for its
identity. -/
structure Hooks where
  paramId : Option String
  navigate : Nat
  refetchWatchlist : Nat

/-- Line 152: the dependency list of the main effect.  The callback
`handleLogout` is memoised on `[navigate, refetchWatchlist]` (line 67), so it
is known by the identities of those two. -/
structure Deps where
  id : Json
  localToken : Option String
  currentUserId : Json
  isAuthenticated : Bool
  navigate : Nat
  handleLogout : Nat × Nat

/-- Line 152: the dependency list as a render with hooks `h` and state `v`
computes it. -/
def deps (h : Hooks) (v : View) : Deps where
  id := id h.paramId v
  localToken := v.localToken
  currentUserId := currentUserId v
  isAuthenticated := isAuthenticated v
  navigate := h.navigate
  handleLogout := (h.navigate, h.refetchWatchlist)

/-- What React does with the main effect when the component renders again with
hooks `h`, after a render whose state was `before`: with the same dependency
list the effect is skipped, with another one it runs.  The first run is the
one before the re-render, the second the one after it. -/
inductive AfterRender (h : Hooks) (order : List Read) (out : Read → Outcome) (before : View) :
    Run → Run → Prop where
  | skip (r : Run) : deps h r.view = deps h before → AfterRender h order out before r r
  | fire (r : Run) : deps h r.view ≠ deps h before →
      AfterRender h order out before r (mainEffect h.paramId order out r)

end Profile

/-! ## App.jsx -/

namespace App

/-- The pages the routes render. -/
inductive Component where
  | Home : Component
  | Movies : Component
  | MovieDetails : Component
  | Watchlist : Component
  | Login : Component
  | Signup : Component
  | Profile : Component
  | EditProfile : Component
  deriving DecidableEq

/-- One segment of a route path: literal text, a parameter `:name`, or the
splat `*`. -/
inductive Seg where
  | static (s : String) : Seg
  | param (name : String) : Seg
  | splat : Seg

/-- A route: its path, split at the slashes, and its element. -/
structure Route where
  path : List Seg
  element : Component

/-- Lines 22-40: the route table. -/
def routes : List Route :=
  [⟨[], .Home⟩,
   ⟨[.static "movies"], .Movies⟩,
   ⟨[.static "movies", .param "id"], .MovieDetails⟩,
   ⟨[.static "watchlist"], .Watchlist⟩,
   ⟨[.static "login"], .Login⟩,
   ⟨[.static "signup"], .Signup⟩,
   ⟨[.static "profile"], .Profile⟩,
   ⟨[.static "profile", .static "edit"], .EditProfile⟩,
   ⟨[.static "profile", .param "id", .static "followers"], .Profile⟩,
   ⟨[.static "profile", .param "id", .static "following"], .Profile⟩,
   ⟨[.static "profile", .param "id", .static "reviews"], .Profile⟩,
   ⟨[.static "profile", .param "id", .static "uploaded-movies"], .Profile⟩,
   ⟨[.static "profile", .param "id", .static "recommendations"], .Profile⟩,
   ⟨[.static "profile", .param "id", .static "liked"], .Profile⟩,
   ⟨[.static "profile", .param "id", .static "watchlist"], .Profile⟩,
   ⟨[.static "profile", .param "id"], .Profile⟩,
   ⟨[.splat], .Home⟩]

/-- ASCII lower case. -/
def lower (s : String) : String :=
  ⟨s.data.map Char.toLower⟩

/-- Whether a literal segment of a route path matches a segment of the
pathname: react-router compares without regard to case. -/
def sameSegment (a b : String) : Bool :=
  lower a == lower b

/-- The route parameters of a match, as `useParams` returns them. -/
abbrev Params := List (String × String)

/-- Whether a route path matches a whole pathname, given as its segments (a
trailing slash leaves an empty last segment), and with which parameters.
Slashes after the last segment of the route path are ignored, a parameter takes
one segment of at least one character, and a splat takes the rest of the
pathname. -/
def matchPath : List Seg → List String → Option Params
  | [], rest => if rest.all (fun x => x == "") then some [] else none
  | [.splat], rest => some [("*", "/".intercalate rest)]
  | .static s :: path, x :: rest => if sameSegment s x then matchPath path rest else none
  | .param name :: path, x :: rest =>
    if x == "" then none else (matchPath path rest).map (fun ps => (name, x) :: ps)
  | _, _ => none

/-- The rank react-router gives a route path (`computeScore`).  The path is
split at the slashes, its leading slash giving one empty segment in front (two
for the root path), and the rank is the number of segments, plus one for an
empty segment, ten for a literal segment and three for a parameter, with a
penalty of two for a splat, which adds nothing of its own. -/
def score : List Seg → Int
  | [] => 4
  | path =>
    path.foldl (fun n seg =>
      match seg with
      | .static _ => n + 11
      | .param _ => n + 4
      | .splat => n + 1 - 2) 2

/-- A matched route. -/
structure Match where
  element : Component
  params : Params
  rank : Int
  deriving DecidableEq

/-- The routes that match a pathname, in the order of the table. -/
def matching (table : List Route) (pathname : List String) : List Match :=
  table.filterMap (fun route =>
    (matchPath route.path pathname).map (fun ps => ⟨route.element, ps, score route.path⟩))

/-- The best of a list of matches: the highest rank, and among equals the
earlier one. -/
def best : List Match → Option Match
  | [] => none
  | m :: rest =>
    match best rest with
    | none => some m
    | some b => if b.rank > m.rank then some b else some m

/-- The element `Routes` renders for a pathname, with its route parameters. -/
def resolve (pathname : List String) : Option Match :=
  best (matching routes pathname)

/-- Line 6 of EditProfile.jsx: the `id` of `useParams()`. -/
def editProfileId (m : Match) : Option String :=
  m.params.lookup "id"

end App

namespace Profile

/-- Line 248: the target of the Edit Profile link. -/
def editLink (v : View) : Template :=
  [.lit "/profile/edit/", .hole (currentUserId v)]

/-- The pathname of the Edit Profile link of a session whose user id is the
string `u`, split at the slashes; `u` is one segment. -/
def editLinkPath (u : String) : List String :=
  ["profile", "edit", u]

end Profile

/-! ## Theorems -/

namespace Profile

/-- C1: when the viewed id is falsy or the session is not authenticated, one
run of the main effect issues no request (it performs no effect at all, on top
of whatever the trace held) and ends with profile null and the five collections
empty. -/
theorem mainEffect_unauthenticated (paramId : Option String) (order : List Read)
    (out : Read → Outcome) (r : Run)
    (h : (id paramId r.view).truthy = false ∨ isAuthenticated r.view = false) :
    let r1 := mainEffect paramId order out r
    r1.trace = r.trace ∧ r1.storage = r.storage ∧
    r1.view.profile = .null ∧ r1.view.followers = .arr [] ∧ r1.view.reviews = .arr [] ∧
    r1.view.following = .arr [] ∧ r1.view.movies = .arr [] ∧
    r1.view.recommendations = .arr [] := by
  have hc : (!(id paramId r.view).truthy || !isAuthenticated r.view) = true := by
    rcases h with h | h <;> simp [h]
  simp [mainEffect, hc, Run.set]

end Profile

/-! ### localStorage -/

theorem Storage.getItem_removeItem_self (st : Storage) (k : String) :
    (st.removeItem k).getItem k = none := by
  induction st with
  | nil => rfl
  | cons p rest ih =>
    obtain ⟨a, b⟩ := p
    simp only [Storage.removeItem, Storage.getItem] at ih ⊢
    by_cases hk : a = k
    · have hne : (a != k) = false := by simp [hk]
      rw [List.filter_cons, hne]
      exact ih
    · have hne : (a != k) = true := by simpa using hk
      have hk2 : (k == a) = false := by simpa using fun h => hk h.symm
      rw [List.filter_cons, hne]
      simp only [if_true]
      rw [List.lookup_cons, hk2]
      exact ih

theorem Storage.getItem_removeItem_of_none (st : Storage) (k j : String)
    (h : st.getItem k = none) : (st.removeItem j).getItem k = none := by
  induction st with
  | nil => rfl
  | cons p rest ih =>
    obtain ⟨a, b⟩ := p
    simp only [Storage.removeItem, Storage.getItem] at ih h ⊢
    rw [List.lookup_cons] at h
    cases hk : (k == a) with
    | true => simp [hk] at h
    | false =>
      simp only [hk] at h
      by_cases hj : a = j
      · have hne : (a != j) = false := by simp [hj]
        rw [List.filter_cons, hne]
        exact ih h
      · have hne : (a != j) = true := by simpa using hj
        rw [List.filter_cons, hne]
        simp only [if_true]
        rw [List.lookup_cons, hk]
        exact ih h

namespace Profile

/-! ### The aggregator -/

theorem firstRejection_eq_none_iff (order : List Read) (out : Read → Outcome) :
    firstRejection order out = none ↔ ∀ k, ∃ d, out k = .ok d := by
  unfold firstRejection
  rw [List.findSome?_eq_none_iff]
  constructor
  · intro h k
    have hk : k ∈ order ++ Read.all := by
      apply List.mem_append_right
      cases k <;> simp [Read.all]
    have := h k hk
    cases hout : out k with
    | ok d => exact ⟨d, rfl⟩
    | fail s => simp [hout] at this
  · intro h k _
    obtain ⟨d, hd⟩ := h k
    simp [hd]

theorem dataOf_ok (out : Read → Outcome) (k : Read) (d : Json) (h : out k = .ok d) :
    dataOf out k = d := by
  simp [dataOf, h]

theorem handleLogout_loggedOut (r : Run) : LoggedOut (handleLogout r) := by
  refine ⟨?_, ?_, rfl, rfl, ?_⟩
  · exact Storage.getItem_removeItem_of_none _ _ _ (Storage.getItem_removeItem_self _ _)
  · exact Storage.getItem_removeItem_self _ _
  · refine ⟨⟨.navigate [.lit "/"], (handleLogout r).view⟩, ?_, rfl⟩
    simp [handleLogout, Run.emit, Run.set]

theorem loggedOut_set (f : View → View) (r : Run) (h : LoggedOut r)
    (h1 : (f r.view).localToken = r.view.localToken)
    (h2 : (f r.view).localCurrentUser = r.view.localCurrentUser) : LoggedOut (r.set f) := by
  obtain ⟨a, b, c, d, e⟩ := h
  exact ⟨a, b, h1.trans c, h2.trans d, e⟩

theorem catchFetch_not_401 (status : Option Nat) (h : status ≠ some 401) (r : Run) :
    (catchFetch (.axios status) r).view = r.view := by
  unfold catchFetch
  split
  · rename_i heq
    cases heq
    exact absurd rfl h
  · rfl

end Profile

namespace Profile

/-- C1, at a concrete input: a freshly mounted Profile at route /profile/42
with nothing in localStorage. -/
theorem mainEffect_unauthenticated_witness :
    isAuthenticated (Run.start (View.initial none .null) []).view = false ∧
    (mainEffect (some "42") [] allFine (Run.start (View.initial none .null) [])).trace = [] ∧
    (mainEffect (some "42") [] allFine (Run.start (View.initial none .null) [])).view.profile
      = .null :=
  have h := mainEffect_unauthenticated (some "42") [] allFine
    (Run.start (View.initial none .null) []) (Or.inr rfl)
  ⟨rfl, h.1, h.2.2.1⟩

/-- C2 as stated fails.  First, a read rejected with status 401 on a populated
view: afterwards the collections are neither the responses nor what they were
(they are reset).  Second, six fulfilled reads whose followers body is not a
list: profile and followers are updated and the other four are not. -/
theorem fetchAllData_all_or_nothing_counterexample :
    ¬ (Committed unauthorised
          (fetchAllData (.str "42") (some "abc") (.str "7") [] unauthorised
            (Run.start sampleView sampleStorage)).view ∨
        Unchanged sampleView
          (fetchAllData (.str "42") (some "abc") (.str "7") [] unauthorised
            (Run.start sampleView sampleStorage)).view) ∧
    ¬ (Committed malformed
          (fetchAllData (.str "42") (some "abc") (.str "7") [] malformed
            (Run.start sampleView sampleStorage)).view ∨
        Unchanged sampleView
          (fetchAllData (.str "42") (some "abc") (.str "7") [] malformed
            (Run.start sampleView sampleStorage)).view) := by
  refine ⟨?_, ?_⟩
  · rintro (h | h)
    · have h1 : Json.null = Json.undefined := h.1
      cases h1
    · have h1 : Json.null = sampleView.profile := h.1
      cases h1
  · rintro (h | h)
    · have h1 : sampleView.reviews = Json.arr [] := h.2.2.1
      simp [sampleView] at h1
    · have h1 : Json.obj [("username", .str "eve")] = sampleView.profile := h.1
      simp [sampleView] at h1

/-- C2, amended: when all six reads are fulfilled and the scan of the followers
body for the current user completes, all six pieces hold the six bodies; when
the first read to be rejected has a status other than 401 (or no response),
all six are what they were; when it has status 401, all six are reset. -/
theorem fetchAllData_commit_cases (i : Json) (token : Option String) (cur : Json)
    (order : List Read) (out : Read → Outcome) (r : Run) :
    ((∀ k, ∃ d, out k = .ok d) →
      (∃ b, someIdMatches (dataOf out .followers) cur = .ok b) →
      Committed out (fetchAllData i token cur order out r).view) ∧
    (∀ status, firstRejection order out = some status → status ≠ some 401 →
      Unchanged r.view (fetchAllData i token cur order out r).view) ∧
    (firstRejection order out = some (some 401) →
      Cleared (fetchAllData i token cur order out r).view) := by
  refine ⟨?_, ?_, ?_⟩
  · intro hall ⟨b, hb⟩
    have hnone := (firstRejection_eq_none_iff order out).2 hall
    simp only [fetchAllData, hnone, hb]
    exact ⟨rfl, rfl, rfl, rfl, rfl, rfl⟩
  · intro status hs hne
    simp only [fetchAllData, hs, Run.set, catchFetch_not_401 status hne]
    exact ⟨rfl, rfl, rfl, rfl, rfl, rfl⟩
  · intro hs
    simp only [fetchAllData, hs]
    exact ⟨rfl, rfl, rfl, rfl, rfl, rfl⟩

/-- C2, amended, at three concrete inputs: six fulfilled reads, a read rejected
with status 500, and a read rejected with status 401. -/
theorem fetchAllData_commit_cases_witness :
    Committed allFine
      (fetchAllData (.str "42") (some "abc") (.str "7") [] allFine
        (Run.start sampleView sampleStorage)).view ∧
    Unchanged sampleView
      (fetchAllData (.str "42") (some "abc") (.str "7") [] serverError
        (Run.start sampleView sampleStorage)).view ∧
    Cleared
      (fetchAllData (.str "42") (some "abc") (.str "7") [] unauthorised
        (Run.start sampleView sampleStorage)).view :=
  ⟨(fetchAllData_commit_cases (.str "42") (some "abc") (.str "7") [] allFine
      (Run.start sampleView sampleStorage)).1
      (fun k => by cases k <;> exact ⟨_, rfl⟩) ⟨true, rfl⟩,
   (fetchAllData_commit_cases (.str "42") (some "abc") (.str "7") [] serverError
      (Run.start sampleView sampleStorage)).2.1 (some 500) rfl (by decide),
   (fetchAllData_commit_cases (.str "42") (some "abc") (.str "7") [] unauthorised
      (Run.start sampleView sampleStorage)).2.2 rfl⟩

/-- C3 as stated fails: the followers read is rejected with status 401, but the
profile read was rejected first, with status 500; the session is left as it
was. -/
theorem fetchAllData_late_401_counterexample :
    (∃ k, mixedFailures k = .fail (some 401)) ∧
    ¬ LoggedOut (fetchAllData (.str "42") (some "abc") (.str "7") [.user, .followers]
        mixedFailures (Run.start sampleView sampleStorage)) := by
  refine ⟨⟨.followers, rfl⟩, ?_⟩
  intro h
  have h1 : some "abc" = (none : Option String) := h.2.2.1
  cases h1

/-- C3, amended: when the first of the six reads to be rejected has status
401, the run ends with both persisted keys removed, both mirrors null, and a
navigation to "/" issued. -/
theorem fetchAllData_logout_on_401 (i : Json) (token : Option String) (cur : Json)
    (order : List Read) (out : Read → Outcome) (r : Run)
    (h : firstRejection order out = some (some 401)) :
    LoggedOut (fetchAllData i token cur order out r) := by
  simp only [fetchAllData, h, catchFetch]
  exact loggedOut_set _ _ (handleLogout_loggedOut _) rfl rfl

/-- C3, amended, at a concrete input: the profile read is the only one
rejected, with status 401. -/
theorem fetchAllData_logout_on_401_witness :
    firstRejection [] unauthorised = some (some 401) ∧
    LoggedOut (fetchAllData (.str "42") (some "abc") (.str "7") [] unauthorised
      (Run.start sampleView sampleStorage)) :=
  ⟨rfl, fetchAllData_logout_on_401 (.str "42") (some "abc") (.str "7") [] unauthorised
    (Run.start sampleView sampleStorage) rfl⟩

end Profile

namespace EditProfile

/-- C4: with an avatar file attached, the first effect of the submission is
the POST of the file, as form field "file", to /api/auth/upload-avatar with the
bearer token, so no PUT precedes it; when the upload is fulfilled and its body
has an avatarUrl to read, the requests are that POST and then one PUT to
/api/auth/ followed by the route id, whose body is the form with avatarUrl
replaced by the returned one; when the upload is rejected, the only effects are
the POST and the error log (no PUT, no navigation); every PUT of the submission
is that PUT, for an upload that was fulfilled; and loading ends false. -/
theorem handleSubmit_upload_then_update (idParam token : Option String) (upload put : Outcome)
    (s : State) (file : File) (h : s.avatarFile = some file) :
    (∃ rest, (handleSubmit idParam token upload put s).trace
        = .request ⟨.POST, [.lit "http://localhost:5000/api/auth/upload-avatar"],
          .formData [("file", file)], [.lit "Bearer ", .hole (Json.ofNullable token)]⟩ :: rest) ∧
    (∀ data avatarUrl, upload = .ok data → data.getProp "avatarUrl" = .ok avatarUrl →
      (handleSubmit idParam token upload put s).requests
        = [⟨.POST, [.lit "http://localhost:5000/api/auth/upload-avatar"],
          .formData [("file", file)], [.lit "Bearer ", .hole (Json.ofNullable token)]⟩,
           ⟨.PUT, [.lit "http://localhost:5000/api/auth/", .hole (Json.ofOptional idParam)],
          .json (.obj [("name", s.form.name), ("username", s.form.username),
            ("bio", s.form.bio), ("avatarUrl", avatarUrl)]),
          [.lit "Bearer ", .hole (Json.ofNullable token)]⟩]) ∧
    (∀ status, upload = .fail status →
      (handleSubmit idParam token upload put s).trace
        = [.request ⟨.POST, [.lit "http://localhost:5000/api/auth/upload-avatar"],
          .formData [("file", file)], [.lit "Bearer ", .hole (Json.ofNullable token)]⟩,
           .consoleError (some "Error updating profile")]) ∧
    (∀ q ∈ (handleSubmit idParam token upload put s).requests, q.method = .PUT →
      ∃ data avatarUrl, upload = .ok data ∧ data.getProp "avatarUrl" = .ok avatarUrl ∧
        q = ⟨.PUT, [.lit "http://localhost:5000/api/auth/", .hole (Json.ofOptional idParam)],
          .json (.obj [("name", s.form.name), ("username", s.form.username),
            ("bio", s.form.bio), ("avatarUrl", avatarUrl)]),
          [.lit "Bearer ", .hole (Json.ofNullable token)]⟩) ∧
    (handleSubmit idParam token upload put s).state.loading = false := by
  refine ⟨?_, ?_, ?_, ?_, ?_⟩
  · simp only [handleSubmit, h]
    cases upload with
    | fail status => exact ⟨_, rfl⟩
    | ok data =>
      cases hp : data.getProp "avatarUrl" with
      | error t =>
        simp only [hp]
        exact ⟨_, rfl⟩
      | ok avatarUrl =>
        simp only [hp]
        cases put with
        | fail status => exact ⟨_, rfl⟩
        | ok d => exact ⟨_, rfl⟩
  · intro data avatarUrl hu hp
    subst hu
    simp only [handleSubmit, h, hp]
    cases put <;> rfl
  · intro status hu
    subst hu
    simp only [handleSubmit, h]
    rfl
  · intro q hq hm
    simp only [handleSubmit, h] at hq
    cases upload with
    | fail status =>
      simp [Run.requests, Run.emit, catchSubmit] at hq
      subst hq
      cases hm
    | ok data =>
      cases hp : data.getProp "avatarUrl" with
      | error t =>
        simp [hp, Run.requests, Run.emit, catchSubmit] at hq
        subst hq
        cases hm
      | ok avatarUrl =>
        refine ⟨data, avatarUrl, rfl, hp, ?_⟩
        cases put <;>
        · simp [hp, Run.requests, Run.emit, catchSubmit, update] at hq
          rcases hq with hq | hq
          · subst hq
            cases hm
          · subst hq
            rfl
  · rfl

/-- C4, at a concrete input: the file new.png is attached to the form of user
"7" with token "abc"; in one submission the upload returns /new.png and the
update succeeds, in another the upload is rejected. -/
theorem handleSubmit_upload_then_update_witness :
    (handleSubmit (some "7") (some "abc") (.ok (.obj [("avatarUrl", .str "/new.png")]))
        (.ok .null) sampleState).requests
      = [⟨.POST, [.lit "http://localhost:5000/api/auth/upload-avatar"],
            .formData [("file", ⟨"new.png"⟩)], [.lit "Bearer ", .hole (.str "abc")]⟩,
         ⟨.PUT, [.lit "http://localhost:5000/api/auth/", .hole (.str "7")],
            .json (.obj [("name", .str "Ada"), ("username", .str "ada"), ("bio", .str ""),
              ("avatarUrl", .str "/new.png")]),
            [.lit "Bearer ", .hole (.str "abc")]⟩] ∧
    (handleSubmit (some "7") (some "abc") (.fail (some 500)) (.ok .null) sampleState).trace
      = [.request ⟨.POST, [.lit "http://localhost:5000/api/auth/upload-avatar"],
            .formData [("file", ⟨"new.png"⟩)], [.lit "Bearer ", .hole (.str "abc")]⟩,
         .consoleError (some "Error updating profile")] :=
  ⟨(handleSubmit_upload_then_update (some "7") (some "abc")
      (.ok (.obj [("avatarUrl", .str "/new.png")])) (.ok .null) sampleState ⟨"new.png"⟩ rfl).2.1
      _ _ rfl rfl,
   (handleSubmit_upload_then_update (some "7") (some "abc") (.fail (some 500)) (.ok .null)
      sampleState ⟨"new.png"⟩ rfl).2.2.1 _ rfl⟩

end EditProfile
namespace Profile

/-! ### The relationship mutator -/

/-- C5: when every request succeeds, clicking the follow button twice (Follow
then Unfollow from isFollowing = false, Unfollow then Follow from isFollowing =
true; the second click is the opposite action, on the same viewed id) leaves
isFollowing as it was before the pair, and followers and following equal to
the bodies of the last two re-fetches. -/
theorem follow_unfollow_round_trip (paramId : Option String) (r : Run)
    (m1 f1 g1 m2 f2 g2 : Json) :
    let r1 := onClick r.view paramId ⟨.ok m1, .ok f1, .ok g1⟩ r
    let r2 := onClick r1.view paramId ⟨.ok m2, .ok f2, .ok g2⟩ r1
    r1.view.isFollowing = (!r.view.isFollowing) ∧
    id paramId r1.view = id paramId r.view ∧
    r2.view.isFollowing = r.view.isFollowing ∧
    r2.view.followers = f2 ∧ r2.view.following = g2 := by
  cases h : r.view.isFollowing <;>
    simp [onClick, h, handleFollow, handleUnfollow, Run.set, Run.emit, id, currentUserId]

/-- C7 as stated fails: when the POST of handleFollow, or the DELETE of
handleUnfollow, is rejected, the run issues no GET of the followers list. -/
theorem refetch_unconditional_counterexample :
    ¬ IssuesGet [.lit "/auth/", .hole (.str "42"), .lit "/followers"]
        (handleFollow (some "42") ⟨.fail (some 500), .ok (.arr []), .ok (.arr [])⟩
          (Run.start sampleView sampleStorage)) ∧
    ¬ IssuesGet [.lit "/auth/", .hole (.str "42"), .lit "/followers"]
        (handleUnfollow (some "42") ⟨.fail (some 500), .ok (.arr []), .ok (.arr [])⟩
          (Run.start sampleView sampleStorage)) := by
  constructor <;>
  · rintro ⟨q, hq, hm, -⟩
    simp [handleFollow, handleUnfollow, Run.requests, Run.events, Run.emit, Run.set,
      Run.start] at hq
    subst hq
    cases hm

/-- C7, amended: a run of handleFollow or handleUnfollow whose mutating request
is fulfilled issues, after it, a GET of the followers list and, when that GET
is fulfilled, a GET of the following list; a run whose mutating request is
rejected issues no other request. -/
theorem refetch_after_mutation (paramId : Option String) (out : Refetch) (v : View)
    (st : Storage) :
    (∀ m, out.mutation = .ok m →
      (∃ rest, (handleFollow paramId out (Run.start v st)).events
        = followRequest (id paramId v) v.localToken
          :: get v.localToken [.lit "/auth/", .hole (id paramId v), .lit "/followers"]
          :: rest) ∧
      (∃ rest, (handleUnfollow paramId out (Run.start v st)).events
        = unfollowRequest (id paramId v) v.localToken
          :: get v.localToken [.lit "/auth/", .hole (id paramId v), .lit "/followers"]
          :: rest)) ∧
    (∀ m f, out.mutation = .ok m → out.followers = .ok f →
      (∃ rest, (handleFollow paramId out (Run.start v st)).events
        = followRequest (id paramId v) v.localToken
          :: get v.localToken [.lit "/auth/", .hole (id paramId v), .lit "/followers"]
          :: get v.localToken [.lit "/auth/", .hole (id paramId v), .lit "/following"]
          :: rest) ∧
      (∃ rest, (handleUnfollow paramId out (Run.start v st)).events
        = unfollowRequest (id paramId v) v.localToken
          :: get v.localToken [.lit "/auth/", .hole (id paramId v), .lit "/followers"]
          :: get v.localToken [.lit "/auth/", .hole (id paramId v), .lit "/following"]
          :: rest)) ∧
    (∀ status, out.mutation = .fail status →
      (handleFollow paramId out (Run.start v st)).events
        = [followRequest (id paramId v) v.localToken, .consoleError none] ∧
      (handleUnfollow paramId out (Run.start v st)).events
        = [unfollowRequest (id paramId v) v.localToken, .consoleError none]) := by
  obtain ⟨mutation, followers, following⟩ := out
  refine ⟨?_, ?_, ?_⟩
  · intro m hm
    simp only at hm
    subst hm
    constructor
    · cases followers with
      | fail s => exact ⟨_, rfl⟩
      | ok f => cases following <;> exact ⟨_, rfl⟩
    · cases followers with
      | fail s => exact ⟨_, rfl⟩
      | ok f => cases following <;> exact ⟨_, rfl⟩
  · intro m f hm hf
    simp only at hm hf
    subst hm hf
    constructor <;> cases following <;> exact ⟨_, rfl⟩
  · intro status hm
    simp only at hm
    subst hm
    exact ⟨rfl, rfl⟩

/-- C7, amended, at concrete inputs: a follow where all three requests are
fulfilled, and an unfollow whose DELETE is rejected. -/
theorem refetch_after_mutation_witness :
    (∃ rest, (handleFollow (some "42") ⟨.ok .null, .ok (.arr []), .ok (.arr [])⟩
        (Run.start sampleView sampleStorage)).events
      = followRequest (.str "42") (some "abc")
        :: get (some "abc") [.lit "/auth/", .hole (.str "42"), .lit "/followers"]
        :: get (some "abc") [.lit "/auth/", .hole (.str "42"), .lit "/following"]
        :: rest) ∧
    (handleUnfollow (some "42") ⟨.fail none, .ok (.arr []), .ok (.arr [])⟩
        (Run.start sampleView sampleStorage)).events
      = [unfollowRequest (.str "42") (some "abc"), .consoleError none] :=
  ⟨((refetch_after_mutation (some "42") ⟨.ok .null, .ok (.arr []), .ok (.arr [])⟩
      sampleView sampleStorage).2.1 .null (.arr []) rfl rfl).1,
   ((refetch_after_mutation (some "42") ⟨.fail none, .ok (.arr []), .ok (.arr [])⟩
      sampleView sampleStorage).2.2 none rfl).2⟩

/-- C8: when the POST of handleFollow or the DELETE of handleUnfollow is
rejected, isFollowing, followers and following end as they were (the whole
view does, but for loading), every effect of the run is performed with loading
shown true, loading ends false, and the button offers the same action again. -/
theorem mutation_failure_leaves_state (paramId : Option String) (status : Option Nat)
    (o1 o2 : Outcome) (v : View) (st : Storage) :
    (let r1 := handleFollow paramId ⟨.fail status, o1, o2⟩ (Run.start v st)
     r1.view.isFollowing = v.isFollowing ∧ r1.view.followers = v.followers ∧
     r1.view.following = v.following ∧ r1.view = { v with loading := false } ∧
     r1.events = [followRequest (id paramId v) v.localToken, .consoleError none] ∧
     (∀ s ∈ r1.trace, s.shown = { v with loading := true }) ∧
     r1.view.loading = false ∧ onClick r1.view = onClick v) ∧
    (let r1 := handleUnfollow paramId ⟨.fail status, o1, o2⟩ (Run.start v st)
     r1.view.isFollowing = v.isFollowing ∧ r1.view.followers = v.followers ∧
     r1.view.following = v.following ∧ r1.view = { v with loading := false } ∧
     r1.events = [unfollowRequest (id paramId v) v.localToken, .consoleError none] ∧
     (∀ s ∈ r1.trace, s.shown = { v with loading := true }) ∧
     r1.view.loading = false ∧ onClick r1.view = onClick v) := by
  constructor <;>
  · refine ⟨rfl, rfl, rfl, rfl, rfl, ?_, rfl, rfl⟩
    intro s hs
    simp [handleFollow, handleUnfollow, Run.emit, Run.set, Run.start] at hs
    rcases hs with hs | hs <;> subst hs <;> rfl

/-! ### isFollowing -/

theorem scan_ok_iff (cur : Json) :
    ∀ (items : List Json) (b : Bool), someIdMatches.scan cur items = .ok b →
      (b = true ↔ ∃ f ∈ items, IsUser cur f) := by
  intro items
  induction items with
  | nil =>
    intro b h
    simp only [someIdMatches.scan] at h
    cases h
    simp
  | cons f rest ih =>
    intro b h
    simp only [someIdMatches.scan] at h
    cases hp : f.getProp "_id" with
    | error t => simp [hp] at h
    | ok w =>
      simp only [hp] at h
      by_cases hw : w.strictEq cur = true
      · simp only [hw, if_true] at h
        cases h
        exact ⟨fun _ => ⟨f, List.mem_cons_self _ _, w, hp, hw⟩, fun _ => rfl⟩
      · simp only [hw] at h
        rw [ih b h]
        constructor
        · rintro ⟨g, hg, hu⟩
          exact ⟨g, List.mem_cons_of_mem _ hg, hu⟩
        · rintro ⟨g, hg, hu⟩
          rcases List.mem_cons.1 hg with rfl | hg
          · obtain ⟨w2, hw2, hs⟩ := hu
            rw [hp] at hw2
            cases hw2
            exact absurd hs hw
          · exact ⟨g, hg, hu⟩

theorem someIdMatches_ok (data cur : Json) (b : Bool) (h : someIdMatches data cur = .ok b) :
    ∃ items, data = .arr items ∧ (b = true ↔ ∃ f ∈ items, IsUser cur f) := by
  cases data with
  | arr items => exact ⟨items, rfl, scan_ok_iff cur items b h⟩
  | _ => simp [someIdMatches] at h

/-- C6: in a run of the main effect by an authenticated session where the six
reads are fulfilled and the scan of the followers body completes, the body is a
list, and isFollowing ends true exactly when that list has an entry whose _id
is strictly equal to the id field of the session user. -/
theorem mainEffect_isFollowing (paramId : Option String) (order : List Read)
    (out : Read → Outcome) (r : Run) (b : Bool)
    (hid : (id paramId r.view).truthy = true) (hauth : isAuthenticated r.view = true)
    (hall : ∀ k, ∃ d, out k = .ok d)
    (hscan : someIdMatches (dataOf out .followers) (currentUserId r.view) = .ok b) :
    ∃ items, out .followers = .ok (.arr items) ∧
      ((mainEffect paramId order out r).view.isFollowing = true ↔
        ∃ f ∈ items, IsUser (r.view.localCurrentUser.optProp "id") f) := by
  obtain ⟨items, hitems, hb⟩ := someIdMatches_ok _ _ _ hscan
  have hnone := (firstRejection_eq_none_iff order out).2 hall
  refine ⟨items, ?_, ?_⟩
  · obtain ⟨d, hd⟩ := hall .followers
    rw [dataOf_ok out _ d hd] at hitems
    rw [hd, hitems]
  · have hv : (mainEffect paramId order out r).view.isFollowing = b := by
      simp only [mainEffect, hid, hauth, fetchAllData, hnone, hscan]
      rfl
    rw [hv]
    exact hb

/-- C6, the scenario: viewed id "42", session user with id "7", token "abc",
followers body [{_id:"7"}]: isFollowing ends true. -/
theorem mainEffect_isFollowing_witness :
    (mainEffect (some "42") [] allFine
        (Run.start (View.initial (some "abc") sampleUser) sampleStorage)).view.isFollowing
      = true :=
  have h := mainEffect_isFollowing (some "42") [] allFine
    (Run.start (View.initial (some "abc") sampleUser) sampleStorage) true rfl rfl
    (fun k => by cases k <;> exact ⟨_, rfl⟩) rfl
  h.elim fun items hi =>
    hi.2.2 ⟨.obj [("_id", .str "7")], by
      have h1 : allFine .followers = .ok (.arr [.obj [("_id", .str "7")]]) := rfl
      rw [h1] at hi
      have h2 := hi.1
      simp only [Outcome.ok.injEq, Json.arr.injEq] at h2
      rw [← h2]
      exact List.mem_singleton_self _, .str "7", rfl, rfl⟩

/-! ### Logout -/

/-- C9 as stated fails: isFollowing is not reset by logout; from a view where
it is true it stays true. -/
theorem handleLogout_isFollowing_counterexample :
    ¬ (LoggedOut (handleLogout (Run.start sampleView sampleStorage)) ∧
        Cleared (handleLogout (Run.start sampleView sampleStorage)).view ∧
        (handleLogout (Run.start sampleView sampleStorage)).view.isFollowing = false) := by
  rintro ⟨-, -, h⟩
  have h1 : true = false := h
  cases h1

/-- C9, amended: after logout both persisted keys are absent, both mirrors are
null, a navigation to "/" has been issued, profile is null and the five
collections are empty; isFollowing is what it was. -/
theorem handleLogout_clears (r : Run) :
    LoggedOut (handleLogout r) ∧ Cleared (handleLogout r).view ∧
    (handleLogout r).view.isFollowing = r.view.isFollowing :=
  ⟨handleLogout_loggedOut r, ⟨rfl, rfl, rfl, rfl, rfl, rfl⟩, rfl⟩

end Profile

namespace Profile

/-! ### Tab panels -/

/-- C10 fails on the code: on a loaded profile whose collections are all
empty, the reviews, the followers and the following panel are each rendered
empty, with no message in them, whereas at the same input the sibling
watchlist, uploaded and recommended panels render their empty-state message. -/
theorem empty_state_counterexample :
    render (emptyView "reviews") idleHook = .ok (.profile [⟨"reviews", []⟩]) ∧
    ¬ ShowsMessage (render (emptyView "reviews") idleHook) ∧
    render (emptyView "followers") idleHook = .ok (.profile [⟨"followers", []⟩]) ∧
    ¬ ShowsMessage (render (emptyView "followers") idleHook) ∧
    render (emptyView "following") idleHook = .ok (.profile [⟨"following", []⟩]) ∧
    ¬ ShowsMessage (render (emptyView "following") idleHook) ∧
    render (emptyView "watchlist") idleHook
      = .ok (.profile [⟨"watchlist", [.p "No movies in watchlist."]⟩]) ∧
    render (emptyView "uploaded") idleHook
      = .ok (.profile [⟨"uploaded", [.h3 "Uploaded Movies", .p "No uploaded movies."]⟩]) ∧
    render (emptyView "recommended") idleHook
      = .ok (.profile [⟨"recommended",
          [.h3 "Movie Recommendations", .p "No recommendations available."]⟩]) := by
  refine ⟨rfl, ?_, rfl, ?_, rfl, ?_, rfl, rfl, rfl⟩
  · rintro ⟨page, hpage, panel, hpanel, text, htext⟩
    have h : render (emptyView "reviews") idleHook = .ok (.profile [⟨"reviews", []⟩]) := rfl
    rw [h] at hpage
    cases hpage
    simp only [Page.panels, List.mem_singleton] at hpanel
    subst hpanel
    simp at htext
  · rintro ⟨page, hpage, panel, hpanel, text, htext⟩
    have h : render (emptyView "followers") idleHook
        = .ok (.profile [⟨"followers", []⟩]) := rfl
    rw [h] at hpage
    cases hpage
    simp only [Page.panels, List.mem_singleton] at hpanel
    subst hpanel
    simp at htext
  · rintro ⟨page, hpage, panel, hpanel, text, htext⟩
    have h : render (emptyView "following") idleHook
        = .ok (.profile [⟨"following", []⟩]) := rfl
    rw [h] at hpage
    cases hpage
    simp only [Page.panels, List.mem_singleton] at hpanel
    subst hpanel
    simp at htext

end Profile
namespace Profile

/-- What each panel renders for an empty collection, on any loaded profile
(nothing loading, no watchlist error, profile present): the watchlist,
uploaded and recommended panels test the length and render a message; the
reviews, followers and following panels map over the list and render
nothing. -/
theorem empty_panels (v : View) (w : WatchlistHook)
    (hv : v.isLoading = false) (hw : w.loading = false) (he : w.error = none)
    (hp : v.profile.truthy = true) :
    (v.activeTab = "watchlist" → w.watchlist = .arr [] →
      render v w = .ok (.profile [⟨"watchlist", [.p "No movies in watchlist."]⟩])) ∧
    (v.activeTab = "uploaded" → v.movies = .arr [] →
      render v w
        = .ok (.profile [⟨"uploaded", [.h3 "Uploaded Movies", .p "No uploaded movies."]⟩])) ∧
    (v.activeTab = "recommended" → v.recommendations = .arr [] →
      render v w
        = .ok (.profile [⟨"recommended",
            [.h3 "Movie Recommendations", .p "No recommendations available."]⟩])) ∧
    (v.activeTab = "reviews" → v.reviews = .arr [] →
      render v w = .ok (.profile [⟨"reviews", []⟩])) ∧
    (v.activeTab = "followers" → v.followers = .arr [] →
      render v w = .ok (.profile [⟨"followers", []⟩])) ∧
    (v.activeTab = "following" → v.following = .arr [] →
      render v w = .ok (.profile [⟨"following", []⟩])) := by
  refine ⟨?_, ?_, ?_, ?_, ?_, ?_⟩ <;> intro ht hc <;>
    simp only [render, hv, hw, he, hp, tabContents, whenTab, ht, hc, watchlistPanel,
      uploadedPanel, recommendedPanel, reviewsPanel, followersPanel, followingPanel,
      lengthIsZero, mapArr, mapArr.each] <;> rfl

/-- The six panels at concrete inputs: the six tabs of a loaded profile with
empty collections. -/
theorem empty_panels_witness :
    render (emptyView "watchlist") idleHook
      = .ok (.profile [⟨"watchlist", [.p "No movies in watchlist."]⟩]) ∧
    render (emptyView "uploaded") idleHook
      = .ok (.profile [⟨"uploaded", [.h3 "Uploaded Movies", .p "No uploaded movies."]⟩]) ∧
    render (emptyView "recommended") idleHook
      = .ok (.profile [⟨"recommended",
          [.h3 "Movie Recommendations", .p "No recommendations available."]⟩]) ∧
    render (emptyView "reviews") idleHook = .ok (.profile [⟨"reviews", []⟩]) ∧
    render (emptyView "followers") idleHook = .ok (.profile [⟨"followers", []⟩]) ∧
    render (emptyView "following") idleHook = .ok (.profile [⟨"following", []⟩]) :=
  ⟨(empty_panels (emptyView "watchlist") idleHook rfl rfl rfl rfl).1 rfl rfl,
   (empty_panels (emptyView "uploaded") idleHook rfl rfl rfl rfl).2.1 rfl rfl,
   (empty_panels (emptyView "recommended") idleHook rfl rfl rfl rfl).2.2.1 rfl rfl,
   (empty_panels (emptyView "reviews") idleHook rfl rfl rfl rfl).2.2.2.1 rfl rfl,
   (empty_panels (emptyView "followers") idleHook rfl rfl rfl rfl).2.2.2.2.1 rfl rfl,
   (empty_panels (emptyView "following") idleHook rfl rfl rfl rfl).2.2.2.2.2 rfl rfl⟩

end Profile

namespace Profile

/-! ### The watchlist panel -/

theorem keyOf_record (m : Json) (h : m ≠ .null ∧ m ≠ .undefined) :
    keyOf m = .ok ((m.optProp "id").or (m.optProp "_id")) := by
  cases m with
  | null => exact absurd rfl h.1
  | undefined => exact absurd rfl h.2
  | obj fields =>
    simp only [keyOf, Json.getProp, Json.optProp, Json.or]
    split <;> rfl
  | _ => rfl

theorem each_movieCard (auth : Bool) :
    ∀ items : List Json, (∀ m ∈ items, m ≠ .null ∧ m ≠ .undefined) →
      mapArr.each (movieCard auth) items = .ok (items.map (cardOf auth)) := by
  intro items
  induction items with
  | nil => intro _; rfl
  | cons m rest ih =>
    intro h
    have hm := keyOf_record m (h m (List.mem_cons_self _ _))
    have hrest := ih (fun x hx => h x (List.mem_cons_of_mem _ hx))
    simp only [mapArr.each, movieCard, hm, hrest, Except.map, List.map_cons, cardOf]

theorem countMovieCards_map_cardOf (auth : Bool) (items : List Json) :
    countMovieCards (items.map (cardOf auth)) = items.length := by
  induction items with
  | nil => rfl
  | cons m rest ih =>
    simp only [countMovieCards, List.map_cons, List.length_cons] at ih ⊢
    rw [List.filter_cons]
    simp only [cardOf, Element.isMovieCard, if_true, List.length_cons]
    exact congrArg (· + 1) ih

/-- C11: on a loaded profile (nothing loading, no watchlist error, profile
present) showing the watchlist tab, with a watchlist that is a list of movie
records: an empty list renders the one paragraph "No movies in watchlist." and
no MovieCard; a list with entries renders one MovieCard per entry, in order,
and not that paragraph. -/
theorem watchlist_panel (v : View) (w : WatchlistHook) (items : List Json)
    (hv : v.isLoading = false) (hw : w.loading = false) (he : w.error = none)
    (hp : v.profile.truthy = true) (ht : v.activeTab = "watchlist")
    (hitems : w.watchlist = .arr items) (hrec : ∀ m ∈ items, m ≠ .null ∧ m ≠ .undefined) :
    ∃ children, render v w = .ok (.profile [⟨"watchlist", children⟩]) ∧
      (items = [] →
        children = [.p "No movies in watchlist."] ∧ countMovieCards children = 0) ∧
      (items ≠ [] →
        children = items.map (cardOf (isAuthenticated v)) ∧
        countMovieCards children = items.length ∧
        Element.p "No movies in watchlist." ∉ children) := by
  cases items with
  | nil =>
    refine ⟨[.p "No movies in watchlist."], ?_, fun _ => ⟨rfl, rfl⟩, fun h => absurd rfl h⟩
    simp only [render, hv, hw, he, hp, tabContents, whenTab, ht, hitems, watchlistPanel,
      lengthIsZero, mapArr, mapArr.each]
    rfl
  | cons m rest =>
    refine ⟨(m :: rest).map (cardOf (isAuthenticated v)), ?_, ?_, ?_⟩
    · have hz : lengthIsZero (.arr (m :: rest)) = .ok false := rfl
      have hm := each_movieCard (isAuthenticated v) (m :: rest) hrec
      simp only [render, hv, hw, he, hp, tabContents, whenTab, ht, hitems, watchlistPanel,
        hz, mapArr, hm]
      rfl
    · intro h
      cases h
    · intro _
      refine ⟨rfl, countMovieCards_map_cardOf _ _, ?_⟩
      intro hmem
      obtain ⟨x, -, hx⟩ := List.mem_map.1 hmem
      cases hx

/-- C11, at concrete inputs: an empty watchlist and a watchlist of two movie
records, on the watchlist tab of a loaded profile. -/
theorem watchlist_panel_witness :
    (∃ children, render (emptyView "watchlist") idleHook
        = .ok (.profile [⟨"watchlist", children⟩]) ∧
      children = [.p "No movies in watchlist."] ∧ countMovieCards children = 0) ∧
    (∃ children, render (emptyView "watchlist") ⟨.arr twoMovies, false, none⟩
        = .ok (.profile [⟨"watchlist", children⟩]) ∧
      countMovieCards children = 2 ∧ Element.p "No movies in watchlist." ∉ children) :=
  ⟨(watchlist_panel (emptyView "watchlist") idleHook [] rfl rfl rfl rfl rfl rfl
      (fun _ h => absurd h (List.not_mem_nil _))).elim
      (fun c hc => ⟨c, hc.1, hc.2.1 rfl⟩),
   (watchlist_panel (emptyView "watchlist") ⟨.arr twoMovies, false, none⟩ twoMovies
      rfl rfl rfl rfl rfl rfl
      (fun m hm => by
        simp only [twoMovies, List.mem_cons, List.mem_singleton, List.not_mem_nil,
          or_false] at hm
        rcases hm with rfl | rfl <;> exact ⟨fun h => (by cases h), fun h => (by cases h)⟩)).elim
      (fun c hc => ⟨c, hc.1, (hc.2.2 (by simp [twoMovies])).2.1,
        (hc.2.2 (by simp [twoMovies])).2.2⟩)⟩

end Profile

namespace Profile

/-! ### Selecting a tab -/

/-- C12: selecting a tab sets activeTab and nothing else: profile, the five
collections, isFollowing and the session mirror are unchanged, localStorage
and the trace are unchanged (no request is issued), the viewed id, the token,
the current user id and the authentication flag are unchanged, so the
dependency list of the main effect is the same for a re-render that receives
the same hooks, and React skips the effect: the re-render issues no request
either. -/
theorem setActiveTab_frame (tab : String) (h : Hooks) (r : Run) :
    (setActiveTab tab r).view = { r.view with activeTab := tab } ∧
    (setActiveTab tab r).view.profile = r.view.profile ∧
    (setActiveTab tab r).view.followers = r.view.followers ∧
    (setActiveTab tab r).view.reviews = r.view.reviews ∧
    (setActiveTab tab r).view.following = r.view.following ∧
    (setActiveTab tab r).view.movies = r.view.movies ∧
    (setActiveTab tab r).view.recommendations = r.view.recommendations ∧
    (setActiveTab tab r).view.isFollowing = r.view.isFollowing ∧
    (setActiveTab tab r).view.localToken = r.view.localToken ∧
    (setActiveTab tab r).view.localCurrentUser = r.view.localCurrentUser ∧
    (setActiveTab tab r).storage = r.storage ∧
    (setActiveTab tab r).trace = r.trace ∧
    id h.paramId (setActiveTab tab r).view = id h.paramId r.view ∧
    currentUserId (setActiveTab tab r).view = currentUserId r.view ∧
    isAuthenticated (setActiveTab tab r).view = isAuthenticated r.view ∧
    deps h (setActiveTab tab r).view = deps h r.view ∧
    (∀ order out r2, AfterRender h order out r.view (setActiveTab tab r) r2 →
      r2 = setActiveTab tab r ∧ r2.requests = r.requests) := by
  refine ⟨rfl, rfl, rfl, rfl, rfl, rfl, rfl, rfl, rfl, rfl, rfl, rfl, rfl, rfl, rfl, rfl, ?_⟩
  intro order out r2 hstep
  cases hstep with
  | skip _ => exact ⟨rfl, rfl⟩
  | fire hne => exact absurd rfl hne

/-- C12, at a concrete input: on the populated sample view, selecting the
reviews tab adds nothing to the trace, and the re-render skips the effect. -/
theorem setActiveTab_frame_witness :
    AfterRender ⟨some "42", 0, 0⟩ [] allFine sampleView
      (setActiveTab "reviews" (Run.start sampleView sampleStorage))
      (setActiveTab "reviews" (Run.start sampleView sampleStorage)) ∧
    (setActiveTab "reviews" (Run.start sampleView sampleStorage)).requests = [] :=
  ⟨AfterRender.skip _ rfl,
   ((setActiveTab_frame "reviews" ⟨some "42", 0, 0⟩ (Run.start sampleView sampleStorage)).2.2.2.2.2.2.2.2.2.2.2.2.2.2.2.2
      [] allFine _ (AfterRender.skip _ rfl)).2⟩

end Profile

namespace App

/-! ### The Edit Profile link -/

theorem matchPath_edit_none (u : String) (hu : u ≠ "") :
    matchPath [.static "profile", .static "edit"] (Profile.editLinkPath u) = none := by
  simp [matchPath, Profile.editLinkPath, hu]

theorem resolve_empty_segments :
    (resolve ["profile", "edit", ""]).map (fun m => (m.element, editProfileId m))
      = some (.EditProfile, none) ∧
    (resolve ["profile", "", "followers"]).map Match.element = some .Home := by
  decide

theorem routes_EditProfile (route : Route) (h : route ∈ routes)
    (he : route.element = .EditProfile) : route.path = [.static "profile", .static "edit"] := by
  simp only [routes, List.mem_cons, List.not_mem_nil, or_false] at h
  rcases h with rfl | rfl | rfl | rfl | rfl | rfl | rfl | rfl | rfl | rfl | rfl | rfl | rfl |
    rfl | rfl | rfl | rfl <;> first | rfl | cases he

theorem best_mem : ∀ (l : List Match) (b : Match), best l = some b → b ∈ l := by
  intro l
  induction l with
  | nil => intro b h; cases h
  | cons m rest ih =>
    intro b h
    simp only [best] at h
    cases hr : best rest with
    | none =>
      simp only [hr, Option.some.injEq] at h
      subst h
      exact List.mem_cons_self _ _
    | some c =>
      simp only [hr] at h
      split at h
      · cases h
        exact List.mem_cons_of_mem _ (ih _ hr)
      · cases h
        exact List.mem_cons_self _ _

theorem resolve_editLink_element (u : String) (hu : u ≠ "") (m : Match)
    (h : resolve (Profile.editLinkPath u) = some m) : m.element ≠ .EditProfile := by
  intro he
  have hm := best_mem _ _ h
  simp only [matching, List.mem_filterMap, Option.map_eq_some'] at hm
  obtain ⟨route, hroute, ps, hps, rfl⟩ := hm
  have hpath := routes_EditProfile route hroute he
  rw [hpath, matchPath_edit_none u hu] at hps
  cases hps

/-- C13 fails on the code: for every non-empty user id `u` the pathname
/profile/edit/u of the Edit Profile link is never resolved to EditProfile; for
the user id "7" it falls through to the catch-all and renders Home, with no
route parameter `id`; and the one pathname that does reach EditProfile,
/profile/edit, binds no `id` either. -/
theorem editLink_not_routed_to_EditProfile :
    (∀ u : String, u = "" ∨
      ((resolve (Profile.editLinkPath u)).map Match.element == some .EditProfile) = false) ∧
    resolve (Profile.editLinkPath "7") = some ⟨.Home, [("*", "profile/edit/7")], 1⟩ ∧
    (resolve (Profile.editLinkPath "7")).map editProfileId = some none ∧
    (resolve ["profile", "edit"]).map (fun m => (m.element, editProfileId m))
      = some (.EditProfile, none) := by
  refine ⟨?_, by decide, by decide, by decide⟩
  intro u
  by_cases hu : u = ""
  · exact Or.inl hu
  · refine Or.inr ?_
    cases h : resolve (Profile.editLinkPath u) with
    | none => rfl
    | some m =>
      have hne := resolve_editLink_element u hu m h
      simp only [Option.map_some', beq_eq_false_iff_ne, ne_eq, Option.some.injEq]
      exact hne

end App
